import Mathlib

/-!
Verification of the BiR schema-mapping and validation subsystem.

The Lean definitions below are a shallow embedding of the Python sources:
  backend/app/models/validation.py        (validation data model)
  backend/app/services/schema_mapper.py   (mapping extraction and lookup)
  backend/app/services/response_validator.py (entity/batch validation)
  backend/app/services/sparql_generator.py   (query text generation)
  backend/app/services/shacl_validator.py    (SHACL validation boundary)

Python dict values are modelled as association lists iterated in insertion
order (Python dicts preserve insertion order); machine-independent ints as
Int/Nat; optional values as Option; functions that raise as Except.
Wall-clock timestamp fields (validated_at, validation_time_ms) carry no
information used by any operation and are omitted from the records.
-/

namespace BiR

/-- Single-quote character as a string (ASCII 39). -/
def sq : String := String.mk [Char.ofNat 39]

/-- Separator join as in Python str.join: empty for [], no trailing separator. -/
def joinSep (sep : String) : List String → String
  | [] => ""
  | [x] => x
  | x :: xs => x ++ sep ++ joinSep sep xs

/-- Substring containment, Python `sub in s`, as a Bool. -/
def pyInStr (sub s : String) : Bool := decide (sub.data <:+: s.data)

/-- Substring containment as a Prop (used in theorem statements). -/
abbrev strContains (s sub : String) : Prop := sub.data <:+: s.data

/-- Python str.lower, restricted to the ASCII range actually occurring in URIs. -/
def pyLower (s : String) : String := String.mk (s.data.map Char.toLower)

/-- Consume exactly n decimal digits, returning the rest of the input. -/
def chompDigits : Nat → List Char → Option (List Char)
  | 0, l => some l
  | n + 1, c :: l => if c.isDigit then chompDigits n l else none
  | _ + 1, [] => none

/-- re.match of ^\d\x7b4\x7d-\d\x7b2\x7d-\d\x7b2\x7d$ (xsd:date pattern). -/
def isXsdDate (s : String) : Bool :=
  match chompDigits 4 s.data with
  | some ('-' :: r1) =>
    match chompDigits 2 r1 with
    | some ('-' :: r2) => chompDigits 2 r2 == some []
    | _ => false
  | _ => false

/-- re.match of the unanchored xsd:dateTime pattern \d4-\d2-\d2T\d2:\d2:\d2. -/
def isXsdDateTime (s : String) : Bool :=
  match chompDigits 4 s.data with
  | some ('-' :: r1) =>
    match chompDigits 2 r1 with
    | some ('-' :: r2) =>
      match chompDigits 2 r2 with
      | some ('T' :: r3) =>
        match chompDigits 2 r3 with
        | some (':' :: r4) =>
          match chompDigits 2 r4 with
          | some (':' :: r5) => (chompDigits 2 r5).isSome
          | _ => false
        | _ => false
      | _ => false
    | _ => false
  | _ => false

/-- Strip a single optional leading minus sign. -/
def stripMinus (l : List Char) : List Char :=
  match l with
  | '-' :: r => r
  | r => r

/-- re.match of ^-?\d\x7b4\x7d$ (xsd:gYear pattern). -/
def isXsdGYear (s : String) : Bool :=
  chompDigits 4 (stripMinus s.data) == some []

/-- re.match of ^\d\x7b4\x7d-\d\x7b2\x7d$ (year-month date form). -/
def isYearMonth (s : String) : Bool :=
  match chompDigits 4 s.data with
  | some ('-' :: r1) => chompDigits 2 r1 == some []
  | _ => false

/-- re.match of ^-?\d+$ (xsd:integer pattern). -/
def isXsdInteger (s : String) : Bool :=
  let l := stripMinus s.data
  !l.isEmpty && l.all (·.isDigit)

/-- re.match of ^-?\d+\.?\d*$ (xsd:decimal pattern). -/
def isXsdDecimal (s : String) : Bool :=
  let l := stripMinus s.data
  let ds := l.takeWhile (·.isDigit)
  let rest := l.dropWhile (·.isDigit)
  !ds.isEmpty &&
    (rest.isEmpty ||
      (match rest with
       | '.' :: r => r.all (·.isDigit)
       | _ => false))

/-- re.match of ^(true|false|0|1)$ (xsd:boolean pattern). -/
def isXsdBoolean (s : String) : Bool :=
  s == "true" || s == "false" || s == "0" || s == "1"

/-- Decimal value of a digit list (most significant first). -/
def natOfDigits (l : List Char) : Nat :=
  l.foldl (fun a c => a * 10 + (c.toNat - 48)) 0

/-- Gregorian leap-year rule, as implemented by Python datetime. -/
def isLeapYear (y : Nat) : Bool :=
  (y % 4 == 0 && y % 100 != 0) || y % 400 == 0

/-- Days in a month, as enforced by datetime.strptime. -/
def daysInMonth (y m : Nat) : Nat :=
  if m == 2 then (if isLeapYear y then 29 else 28)
  else if m == 4 || m == 6 || m == 9 || m == 11 then 30
  else 31

end BiR

namespace BiR

/-- ValidationSeverity enum from models/validation.py. -/
inductive ValidationSeverity where
  | error
  | warning
  | info
deriving DecidableEq

/-- ValidationType enum from models/validation.py. -/
inductive ValidationType where
  | missing_required
  | type_mismatch
  | invalid_range
  | unknown_property
  | cardinality
  | format
  | domain_violation
  | range_violation
deriving DecidableEq

/-- String value of a ValidationType (the enum member .value). -/
def ValidationType.value : ValidationType → String
  | .missing_required => "missing_required"
  | .type_mismatch => "type_mismatch"
  | .invalid_range => "invalid_range"
  | .unknown_property => "unknown_property"
  | .cardinality => "cardinality"
  | .format => "format"
  | .domain_violation => "domain_violation"
  | .range_violation => "range_violation"

/-- ValidationIssue model (validated_at-style metadata nonexistent here). -/
structure ValidationIssue where
  type : ValidationType
  severity : ValidationSeverity
  field : String
  message : String
  expected : Option String := none
  actual : Option String := none
  wikidata_property : Option String := none
  ontology_property : Option String := none
deriving DecidableEq

/-- ValidationResult model; the validated_at timestamp is omitted. -/
structure ValidationResult where
  valid : Bool
  entity_type : String
  entity_id : Option String := none
  issues : List ValidationIssue := []
  error_count : Nat := 0
  warning_count : Nat := 0
  info_count : Nat := 0
deriving DecidableEq

/-- ValidationResult.add_issue: append the issue and update counts/validity. -/
def add_issue (r : ValidationResult) (issue : ValidationIssue) : ValidationResult :=
  let r := { r with issues := r.issues ++ [issue] }
  match issue.severity with
  | .error => { r with error_count := r.error_count + 1, valid := false }
  | .warning => { r with warning_count := r.warning_count + 1 }
  | .info => { r with info_count := r.info_count + 1 }

/-- The constructor call used by the validator: valid=True, counts zero, no issues. -/
def mkValidationResult (entity_type : String) (entity_id : Option String) : ValidationResult :=
  { valid := true, entity_type := entity_type, entity_id := entity_id }

/-- Number of issues with a given severity. -/
def countSeverity (sev : ValidationSeverity) (issues : List ValidationIssue) : Nat :=
  issues.countP (fun i => i.severity == sev)

/-- JSON-like Python value as passed to the validator (floats never occur in
the validated inputs and are not modelled). -/
inductive JValue where
  | null
  | bool (b : Bool)
  | int (n : Int)
  | str (s : String)
  | list (xs : List JValue)
  | dict (kvs : List (String × JValue))

/-- Python truthiness of a JValue. -/
def pyTruthy : JValue → Bool
  | .null => false
  | .bool b => b
  | .int n => n != 0
  | .str s => !s.isEmpty
  | .list xs => !xs.isEmpty
  | .dict kvs => !kvs.isEmpty

/-- Python type(value).__name__. -/
def pyTypeName : JValue → String
  | .null => "NoneType"
  | .bool _ => "bool"
  | .int _ => "int"
  | .str _ => "str"
  | .list _ => "list"
  | .dict _ => "dict"

mutual

/-- Python str() of a value (repr is used for elements of containers).
Modelled for the plain strings/ints occurring in validated data. -/
def pyStr : JValue → String
  | .null => "None"
  | .bool true => "True"
  | .bool false => "False"
  | .int n => toString n
  | .str s => s
  | .list xs => "[" ++ joinSep ", " (pyReprList xs) ++ "]"
  | .dict kvs => "\x7b" ++ joinSep ", " (pyReprDict kvs) ++ "\x7d"

/-- Python repr() of a value (strings gain single quotes). -/
def pyRepr : JValue → String
  | .str s => sq ++ s ++ sq
  | .null => "None"
  | .bool true => "True"
  | .bool false => "False"
  | .int n => toString n
  | .list xs => "[" ++ joinSep ", " (pyReprList xs) ++ "]"
  | .dict kvs => "\x7b" ++ joinSep ", " (pyReprDict kvs) ++ "\x7d"

/-- repr of each element of a list. -/
def pyReprList : List JValue → List String
  | [] => []
  | x :: xs => pyRepr x :: pyReprList xs

/-- repr of each key/value pair of a dict. -/
def pyReprDict : List (String × JValue) → List String
  | [] => []
  | (k, v) :: kvs => (sq ++ k ++ sq ++ ": " ++ pyRepr v) :: pyReprDict kvs

end

/-- Python dict.get(k) on an association list (keys unique in Python dicts). -/
def dictGet (kvs : List (String × JValue)) (k : String) : Option JValue :=
  (kvs.find? (fun kv => kv.1 == k)).map (·.2)

/-- Python `a or b` over possibly-absent values (first truthy, else the second). -/
def pyOrV (a b : Option JValue) : Option JValue :=
  match a with
  | some v => if pyTruthy v then some v else b
  | none => b

/-- Python dict assignment d[k] = v on an association list: overwrite in place
if the key exists (keeping its position), else append. -/
def insertReplace {α : Type} (k : String) (v : α) : List (String × α) → List (String × α)
  | [] => [(k, v)]
  | (k', v') :: rest =>
    if k' == k then (k, v) :: rest else (k', v') :: insertReplace k v rest

/-- Association-list lookup returning the mapped value (dict.get). -/
def assocGet {α : Type} (l : List (String × α)) (k : String) : Option α :=
  (l.find? (fun kv => kv.1 == k)).map (·.2)

end BiR

namespace BiR

/-- ClassMapping model from models/validation.py. -/
structure ClassMapping where
  ontology_uri : String
  ontology_local : String
  wikidata_uri : String
  wikidata_id : String
  label : Option String := none
  parent_class : Option String := none
deriving DecidableEq

/-- PropertyMapping model from models/validation.py. -/
structure PropertyMapping where
  ontology_uri : String
  ontology_local : String
  wikidata_uri : String
  wikidata_id : String
  property_type : String
  domain : Option String := none
  range : Option String := none
  label : Option String := none
deriving DecidableEq

/-- SchemaInfo model: mapping lists plus the four lookup indexes. -/
structure SchemaInfo where
  class_mappings : List ClassMapping := []
  property_mappings : List PropertyMapping := []
  class_count : Nat := 0
  property_count : Nat := 0
  wikidata_to_ontology_class : List (String × String) := []
  ontology_to_wikidata_class : List (String × String) := []
  wikidata_to_ontology_property : List (String × String) := []
  ontology_to_wikidata_property : List (String × String) := []
deriving DecidableEq

/-- The schema mapper after extraction: the cached SchemaInfo together with the
transitive rdfs:subClassOf relation of the ontology graph, abstracting the
ASK \x7b sub rdfs:subClassOf+ sup \x7d query issued by _is_subclass_of. -/
structure SchemaMap where
  schema : SchemaInfo
  subclassOf : String → String → Bool

/-- SchemaMapper._extract_local_name: text after the last # if any, else after
the last /. -/
def extract_local_name (uri : String) : String :=
  if pyInStr "#" uri then String.mk ((uri.data.reverse.takeWhile (· != '#')).reverse)
  else String.mk ((uri.data.reverse.takeWhile (· != '/')).reverse)

/-- SchemaMapper._extract_wikidata_id: re.search of Q\d+$ — the trailing digit
run together with a preceding Q, else the empty string. -/
def extract_wikidata_id (uri : String) : String :=
  let rev := uri.data.reverse
  let ds := rev.takeWhile (·.isDigit)
  if ds.isEmpty then ""
  else
    match rev.drop ds.length with
    | 'Q' :: _ => String.mk ('Q' :: ds.reverse)
    | _ => ""

/-- SchemaMapper._extract_wikidata_property_id: re.search of P\d+$. -/
def extract_wikidata_property_id (uri : String) : String :=
  let rev := uri.data.reverse
  let ds := rev.takeWhile (·.isDigit)
  if ds.isEmpty then ""
  else
    match rev.drop ds.length with
    | 'P' :: _ => String.mk ('P' :: ds.reverse)
    | _ => ""

/-- Whether an identifier matches any of the four identifier fields of a class
mapping (the tuple-membership test in get_class_mapping). -/
def classMatches (identifier : String) (cm : ClassMapping) : Bool :=
  identifier == cm.ontology_local || identifier == cm.ontology_uri ||
    identifier == cm.wikidata_id || identifier == cm.wikidata_uri

/-- Whether an identifier matches any of the four identifier fields of a
property mapping. -/
def propMatches (identifier : String) (pm : PropertyMapping) : Bool :=
  identifier == pm.ontology_local || identifier == pm.ontology_uri ||
    identifier == pm.wikidata_id || identifier == pm.wikidata_uri

/-- SchemaMapper.get_class_mapping: first mapping matching the identifier. -/
def get_class_mapping (m : SchemaMap) (identifier : String) : Option ClassMapping :=
  m.schema.class_mappings.find? (classMatches identifier)

/-- SchemaMapper.get_property_mapping: first mapping matching the identifier. -/
def get_property_mapping (m : SchemaMap) (identifier : String) : Option PropertyMapping :=
  m.schema.property_mappings.find? (propMatches identifier)

/-- SchemaMapper._is_subclass_of: equality or the transitive subclass ASK. -/
def is_subclass_of (m : SchemaMap) (sub sup : String) : Bool :=
  sub == sup || m.subclassOf sub sup

/-- SchemaMapper.get_properties_for_class. -/
def get_properties_for_class (m : SchemaMap) (class_identifier : String) :
    List PropertyMapping :=
  match get_class_mapping m class_identifier with
  | none => []
  | some cm =>
    m.schema.property_mappings.filter (fun pm =>
      match pm.domain with
      | some d => !d.isEmpty && (d == cm.ontology_uri || is_subclass_of m d cm.ontology_uri)
      | none => false)

/-- The per-property constraint dict built by get_expected_properties_for_class. -/
structure PropInfo where
  wikidata_property : String
  property_type : String
  range : Option String := none
  label : Option String := none
  required : Bool := false
deriving DecidableEq

/-- SchemaMapper.get_expected_properties_for_class: local name → constraints,
with required always False (cardinality constraints are not consulted). -/
def get_expected_properties_for_class (m : SchemaMap) (class_identifier : String) :
    List (String × PropInfo) :=
  match get_class_mapping m class_identifier with
  | none => []
  | some _ =>
    (get_properties_for_class m class_identifier).foldl
      (fun acc pm =>
        insertReplace pm.ontology_local
          { wikidata_property := pm.wikidata_id
            property_type := pm.property_type
            range := pm.range
            label := pm.label
            required := false } acc)
      []

/-- SchemaMapper.translate_to_wikidata. -/
def translate_to_wikidata (m : SchemaMap) (ontology_identifier : String) : Option String :=
  match get_class_mapping m ontology_identifier with
  | some cm => some cm.wikidata_id
  | none =>
    match get_property_mapping m ontology_identifier with
    | some pm => some pm.wikidata_id
    | none => none

/-- SchemaMapper.translate_from_wikidata. -/
def translate_from_wikidata (m : SchemaMap) (wikidata_id : String) : Option String :=
  match get_class_mapping m wikidata_id with
  | some cm => some cm.ontology_local
  | none =>
    match get_property_mapping m wikidata_id with
    | some pm => some pm.ontology_local
    | none => none

end BiR

namespace BiR

/-- URI keys of ResponseValidator.DATATYPE_PATTERNS. -/
def xsdDateURI : String := "http://www.w3.org/2001/XMLSchema#date"

/-- xsd:dateTime URI. -/
def xsdDateTimeURI : String := "http://www.w3.org/2001/XMLSchema#dateTime"

/-- xsd:gYear URI. -/
def xsdGYearURI : String := "http://www.w3.org/2001/XMLSchema#gYear"

/-- xsd:integer URI. -/
def xsdIntegerURI : String := "http://www.w3.org/2001/XMLSchema#integer"

/-- xsd:decimal URI. -/
def xsdDecimalURI : String := "http://www.w3.org/2001/XMLSchema#decimal"

/-- xsd:boolean URI. -/
def xsdBooleanURI : String := "http://www.w3.org/2001/XMLSchema#boolean"

/-- xsd:string URI. -/
def xsdStringURI : String := "http://www.w3.org/2001/XMLSchema#string"

/-- DATATYPE_PATTERNS lookup followed by the regex match: none when the range
URI is not a key of the dict, otherwise whether the pattern matches. The
xsd:string pattern .* matches every string. -/
def matchDatatypePattern (rangeUri : String) (s : String) : Option Bool :=
  if rangeUri == xsdDateURI then some (isXsdDate s)
  else if rangeUri == xsdDateTimeURI then some (isXsdDateTime s)
  else if rangeUri == xsdGYearURI then some (isXsdGYear s)
  else if rangeUri == xsdIntegerURI then some (isXsdInteger s)
  else if rangeUri == xsdDecimalURI then some (isXsdDecimal s)
  else if rangeUri == xsdBooleanURI then some (isXsdBoolean s)
  else if rangeUri == xsdStringURI then some true
  else none

/-- ResponseValidator.QID_PATTERN: re.match of ^Q\d+$. -/
def isQID (s : String) : Bool :=
  match s.data with
  | 'Q' :: rest => !rest.isEmpty && rest.all (·.isDigit)
  | _ => false

/-- ResponseValidator.WIKIDATA_URI_PATTERN: ^http://www.wikidata.org/entity/(Q\d+)$. -/
def isWikidataEntityURI (s : String) : Bool :=
  let pre : List Char := "http://www.wikidata.org/entity/".data
  pre.isPrefixOf s.data && isQID (String.mk (s.data.drop pre.length))

/-- ResponseValidator._get_datatype_name. -/
def get_datatype_name (datatype_uri : String) : String :=
  if pyInStr "#" datatype_uri then
    String.mk ((datatype_uri.data.reverse.takeWhile (· != '#')).reverse)
  else String.mk ((datatype_uri.data.reverse.takeWhile (· != '/')).reverse)

/-- datetime.strptime validity for the %Y-%m-%d form on a string already known
to match the full-date regex: datetime requires year ≥ 1 and a real
calendar day. -/
def strptimeFullDateOK (y m d : Nat) : Bool :=
  1 ≤ y && 1 ≤ m && m ≤ 12 && 1 ≤ d && d ≤ daysInMonth y m

/-- ResponseValidator._validate_date_value. -/
def validate_date_value (field_name : String) (value : JValue)
    (wikidata_prop : Option String) : List ValidationIssue :=
  let str_value := pyStr value
  let l := str_value.data
  let parsed :=
    if isXsdDate str_value then
      strptimeFullDateOK (natOfDigits (l.take 4)) (natOfDigits ((l.drop 5).take 2))
        (natOfDigits ((l.drop 8).take 2))
    else if isYearMonth str_value then
      (let y := natOfDigits (l.take 4)
       let mo := natOfDigits ((l.drop 5).take 2)
       1 ≤ y && 1 ≤ mo && mo ≤ 12)
    else if isXsdGYear str_value then
      (match l with
       | '-' :: _ => true
       | _ => 1 ≤ natOfDigits (l.take 4))
    else false
  if !parsed && !str_value.isEmpty then
    [{ type := .format
       severity := .warning
       field := field_name
       message := "Date value " ++ sq ++ str_value ++ sq ++ " may not be in standard format"
       expected := some "ISO 8601 date (YYYY-MM-DD, YYYY-MM, or YYYY)"
       actual := some str_value
       wikidata_property := wikidata_prop }]
  else []

/-- Python int(str) success on a stripped string: optional sign, then digit
groups separated by single underscores. -/
def digitsUnderscore : List Char → Bool
  | [] => false
  | [c] => c.isDigit
  | c :: '_' :: r2 => c.isDigit && digitsUnderscore r2
  | c :: c2 :: rest => c.isDigit && digitsUnderscore (c2 :: rest)

/-- Whether Python int(s) succeeds for a string s. -/
def pyIntParses (s : String) : Bool :=
  let t := (s.data.dropWhile Char.isWhitespace).reverse.dropWhile Char.isWhitespace
  let t := t.reverse
  let t :=
    match t with
    | '+' :: r => r
    | '-' :: r => r
    | r => r
  digitsUnderscore t

/-- ResponseValidator._validate_integer_value. -/
def validate_integer_value (field_name : String) (value : JValue)
    (wikidata_prop : Option String) : List ValidationIssue :=
  match value with
  | .int _ => []
  | .bool _ => []
  | v =>
    if pyIntParses (pyStr v) then []
    else
      [{ type := .type_mismatch
         severity := .error
         field := field_name
         message := "Expected integer value for " ++ sq ++ field_name ++ sq
         expected := some "Integer"
         actual := some (pyTypeName v ++ ": " ++ pyStr v)
         wikidata_property := wikidata_prop }]

/-- The format WARNING issued by _validate_object_property for an id that looks
like neither a QID nor a Wikidata entity URI. -/
def objectFormatIssue (field_name : String) (entity_id : JValue)
    (wikidata_prop : Option String) : ValidationIssue :=
  { type := .format
    severity := .warning
    field := field_name
    message := "Value " ++ sq ++ pyStr entity_id ++ sq ++ " doesn" ++ sq ++
      "t look like a valid Wikidata entity"
    expected := some "QID (e.g., Q23434) or Wikidata URI"
    actual := some (pyStr entity_id)
    wikidata_property := wikidata_prop }

/-- The trailing entity-reference format check of _validate_object_property. -/
def checkEntityId (field_name : String) (entity_id : Option JValue)
    (wikidata_prop : Option String) : List ValidationIssue :=
  match entity_id with
  | none => []
  | some v =>
    if pyTruthy v then
      if isQID (pyStr v) then []
      else if isWikidataEntityURI (pyStr v) then []
      else [objectFormatIssue field_name v wikidata_prop]
    else []

mutual

/-- ResponseValidator._validate_object_property. -/
def validate_object_property (field_name : String) (value : JValue)
    (expected_range : Option String) (wikidata_prop : Option String) :
    List ValidationIssue :=
  match value with
  | .dict kvs =>
    checkEntityId field_name
      (pyOrV (dictGet kvs "qid") (pyOrV (dictGet kvs "value") (dictGet kvs "id")))
      wikidata_prop
  | .str s => checkEntityId field_name (some (.str s)) wikidata_prop
  | .list xs => validate_object_list field_name xs expected_range wikidata_prop
  | v =>
    [{ type := .type_mismatch
       severity := .error
       field := field_name
       message := "Object property " ++ sq ++ field_name ++ sq ++
         " should be an entity reference"
       expected := some "Entity reference (QID or URI)"
       actual := some (pyTypeName v ++ ": " ++ pyStr v)
       wikidata_property := wikidata_prop }]

/-- Element-wise validation of a list-valued object property. -/
def validate_object_list (field_name : String) (xs : List JValue)
    (expected_range : Option String) (wikidata_prop : Option String) :
    List ValidationIssue :=
  match xs with
  | [] => []
  | x :: rest =>
    validate_object_property field_name x expected_range wikidata_prop ++
      validate_object_list field_name rest expected_range wikidata_prop

end

/-- Truthiness of an optional string (Python `if expected_range:`). -/
def optStrTruthy : Option String → Bool
  | none => false
  | some s => !s.isEmpty

mutual

/-- ResponseValidator._validate_datatype_property. -/
def validate_datatype_property (field_name : String) (value : JValue)
    (expected_range : Option String) (wikidata_prop : Option String) :
    List ValidationIssue :=
  match value with
  | .list xs => validate_datatype_list field_name xs expected_range wikidata_prop
  | v =>
    let actual_value : JValue :=
      match v with
      | .dict kvs => (dictGet kvs "value").getD (.dict kvs)
      | _ => v
    let regexIssues :=
      match expected_range with
      | some rng =>
        (match matchDatatypePattern rng (pyStr actual_value) with
         | some true => []
         | some false =>
           [{ type := .type_mismatch
              severity := .warning
              field := field_name
              message := "Value doesn" ++ sq ++ "t match expected datatype format"
              expected := some (get_datatype_name rng)
              actual := some (pyTypeName actual_value ++ ": " ++
                String.mk ((pyStr actual_value).data.take 50) ++ "...")
              wikidata_property := wikidata_prop }]
         | none => [])
      | none => []
    let extraIssues :=
      if optStrTruthy expected_range then
        (let rng := expected_range.getD ""
         if pyInStr "date" (pyLower rng) then
           validate_date_value field_name actual_value wikidata_prop
         else if pyInStr "integer" (pyLower rng) then
           validate_integer_value field_name actual_value wikidata_prop
         else [])
      else []
    regexIssues ++ extraIssues

/-- Element-wise validation of a list-valued datatype property. -/
def validate_datatype_list (field_name : String) (xs : List JValue)
    (expected_range : Option String) (wikidata_prop : Option String) :
    List ValidationIssue :=
  match xs with
  | [] => []
  | x :: rest =>
    validate_datatype_property field_name x expected_range wikidata_prop ++
      validate_datatype_list field_name rest expected_range wikidata_prop

end

/-- ResponseValidator._validate_property_value. -/
def validate_property_value (field_name : String) (value : JValue)
    (prop_info : PropInfo) (strict : Bool) : List ValidationIssue :=
  match value with
  | .null => []
  | v =>
    let _ := strict
    if prop_info.property_type == "ObjectProperty" then
      validate_object_property field_name v prop_info.range
        (some prop_info.wikidata_property)
    else if prop_info.property_type == "DatatypeProperty" then
      validate_datatype_property field_name v prop_info.range
        (some prop_info.wikidata_property)
    else []

end BiR

namespace BiR

/-- Meta fields skipped by the per-field loop of validate_entity. -/
def metaFields : List String := ["qid", "id", "uri", "type"]

/-- dict lookup on entity data (keys are unique in Python dicts). -/
def pyLookup (data : List (String × JValue)) (k : String) : Option JValue :=
  (data.find? (fun kv => kv.1 == k)).map (·.2)

/-- ResponseValidator._extract_entity_id: first of qid/id/uri/item present in
the data wins; a dict-shaped value contributes its "value" entry. -/
def extractIdAux (data : List (String × JValue)) : List String → Option String
  | [] => none
  | k :: rest =>
    match pyLookup data k with
    | some (.dict kvs) => (dictGet kvs "value").map pyStr
    | some v => some (pyStr v)
    | none => extractIdAux data rest

/-- ResponseValidator._extract_entity_id. -/
def extract_entity_id (data : List (String × JValue)) : Option String :=
  extractIdAux data ["qid", "id", "uri", "item"]

/-- The ERROR issue for an unknown entity type. -/
def unknownTypeIssue (entity_type : String) : ValidationIssue :=
  { type := .unknown_property
    severity := .error
    field := "entity_type"
    message := "Unknown entity type: " ++ entity_type
    expected := some "One of: Author, LiteraryWork, Genre, etc."
    actual := some entity_type }

/-- The issue for a field mapping to no ontology property and no Wikidata id. -/
def unknownPropIssue (field_name : String) (strict : Bool) : ValidationIssue :=
  { type := .unknown_property
    severity := if strict then .error else .warning
    field := field_name
    message := "Property " ++ sq ++ field_name ++ sq ++
      " is not defined in the ontology schema"
    actual := some field_name }

/-- The issue for an expected property absent from the data. -/
def missingIssue (prop_name : String) (prop_info : PropInfo) (strict : Bool) :
    ValidationIssue :=
  let is_required := prop_info.required
  let severity : ValidationSeverity :=
    if strict && !is_required then .warning
    else if is_required then .error else .info
  { type := .missing_required
    severity := severity
    field := prop_name
    message := (if is_required then "Required" else "Optional") ++ " property " ++
      sq ++ prop_name ++ sq ++ " is missing"
    expected := some prop_info.wikidata_property
    wikidata_property := some prop_info.wikidata_property
    ontology_property := some prop_name }

/-- Issues contributed by one input field in the field loop of validate_entity:
meta fields are skipped; expected properties are value-validated; other
fields whose reverse translation is truthy (a non-empty local name) are
accepted silently; a falsy translation -- None, or the empty local name of a
degenerate mapping -- raises unknown_property, mirroring `if not wd_prop:`. -/
def fieldIssues (m : SchemaMap) (expected : List (String × PropInfo))
    (strict : Bool) (kv : String × JValue) : List ValidationIssue :=
  if metaFields.contains kv.1 then []
  else
    match assocGet expected kv.1 with
    | some pi => validate_property_value kv.1 kv.2 pi strict
    | none =>
      if optStrTruthy (translate_from_wikidata m kv.1) then []
      else [unknownPropIssue kv.1 strict]

/-- One step of the field loop: add the issues for one field. -/
def processField (m : SchemaMap) (expected : List (String × PropInfo))
    (strict : Bool) (acc : ValidationResult) (kv : String × JValue) :
    ValidationResult :=
  (fieldIssues m expected strict kv).foldl add_issue acc

/-- Issues contributed by the missing-property loop of validate_entity. -/
def missingIssues (expected : List (String × PropInfo)) (dataKeys : List String)
    (strict : Bool) : List ValidationIssue :=
  expected.filterMap (fun kv =>
    if dataKeys.contains kv.1 then none
    else some (missingIssue kv.1 kv.2 strict))

/-- ResponseValidator.validate_entity. -/
def validate_entity (m : SchemaMap) (entity_type : String)
    (data : List (String × JValue)) (strict : Bool) : ValidationResult :=
  let result := mkValidationResult entity_type (extract_entity_id data)
  match get_class_mapping m entity_type with
  | none => add_issue result (unknownTypeIssue entity_type)
  | some _ =>
    let expected := get_expected_properties_for_class m entity_type
    let r1 := data.foldl (processField m expected strict) result
    (missingIssues expected (data.map (·.1)) strict).foldl add_issue r1

/-- BatchValidationResult model; the validated_at timestamp is omitted. -/
structure BatchValidationResult where
  total_entities : Nat
  valid_entities : Nat := 0
  invalid_entities : Nat := 0
  results : List ValidationResult := []
  total_errors : Nat := 0
  total_warnings : Nat := 0
  summary : List (String × Nat) := []
deriving DecidableEq

/-- The summary update of add_result: bump the per-issue-type counters. -/
def updateSummary (summary : List (String × Nat)) (issues : List ValidationIssue) :
    List (String × Nat) :=
  issues.foldl (fun s i =>
    insertReplace i.type.value ((assocGet s i.type.value).getD 0 + 1) s) summary

/-- BatchValidationResult.add_result. -/
def add_result (b : BatchValidationResult) (r : ValidationResult) :
    BatchValidationResult :=
  { b with
    results := b.results ++ [r]
    valid_entities := if r.valid then b.valid_entities + 1 else b.valid_entities
    invalid_entities := if r.valid then b.invalid_entities else b.invalid_entities + 1
    total_errors := b.total_errors + r.error_count
    total_warnings := b.total_warnings + r.warning_count
    summary := updateSummary b.summary r.issues }

/-- ResponseValidator.validate_batch. -/
def validate_batch (m : SchemaMap) (entity_type : String)
    (data_list : List (List (String × JValue))) (strict : Bool) :
    BatchValidationResult :=
  data_list.foldl (fun b data => add_result b (validate_entity m entity_type data strict))
    { total_entities := data_list.length }

end BiR

namespace BiR

/-- The ValidationResult invariant of the spec: validity mirrors the error
count and each counter counts its severity. -/
def resultInv (r : ValidationResult) : Prop :=
  r.valid = (r.error_count == 0) ∧
  r.error_count = countSeverity .error r.issues ∧
  r.warning_count = countSeverity .warning r.issues ∧
  r.info_count = countSeverity .info r.issues

theorem resultInv_add_issue {r : ValidationResult} (i : ValidationIssue)
    (h : resultInv r) : resultInv (add_issue r i) := by
  obtain ⟨h1, h2, h3, h4⟩ := h
  unfold resultInv add_issue countSeverity at *
  cases hs : i.severity <;>
    simp_all [List.countP_append, List.countP_cons, hs]

theorem resultInv_foldl (issues : List ValidationIssue) (r : ValidationResult)
    (h : resultInv r) : resultInv (issues.foldl add_issue r) := by
  induction issues generalizing r with
  | nil => exact h
  | cons i t ih => exact ih _ (resultInv_add_issue i h)

/-- C1: a ValidationResult constructed with valid=true and zero counts keeps
the invariant valid == (error_count == 0) after any sequence of add_issue
calls, and each counter equals the number of issues of its severity. -/
theorem C1_add_issue_invariant (entity_type : String) (entity_id : Option String)
    (issues : List ValidationIssue) :
    ((issues.foldl add_issue (mkValidationResult entity_type entity_id)).valid =
      ((issues.foldl add_issue (mkValidationResult entity_type entity_id)).error_count == 0)) ∧
    (issues.foldl add_issue (mkValidationResult entity_type entity_id)).error_count =
      countSeverity .error (issues.foldl add_issue (mkValidationResult entity_type entity_id)).issues ∧
    (issues.foldl add_issue (mkValidationResult entity_type entity_id)).warning_count =
      countSeverity .warning (issues.foldl add_issue (mkValidationResult entity_type entity_id)).issues ∧
    (issues.foldl add_issue (mkValidationResult entity_type entity_id)).info_count =
      countSeverity .info (issues.foldl add_issue (mkValidationResult entity_type entity_id)).issues := by
  have hinit : resultInv (mkValidationResult entity_type entity_id) := by
    unfold resultInv mkValidationResult countSeverity
    simp
  exact resultInv_foldl issues _ hinit

/-- The BatchValidationResult invariant of the spec. -/
def batchInv (b : BatchValidationResult) : Prop :=
  b.valid_entities + b.invalid_entities = b.results.length ∧
  b.total_errors = (b.results.map (·.error_count)).sum ∧
  b.total_warnings = (b.results.map (·.warning_count)).sum

theorem batchInv_add_result {b : BatchValidationResult} (r : ValidationResult)
    (h : batchInv b) : batchInv (add_result b r) := by
  obtain ⟨h1, h2, h3⟩ := h
  unfold batchInv add_result
  by_cases hv : r.valid <;> simp_all <;> omega

theorem batchInv_foldl {α : Type} (f : α → ValidationResult) (l : List α)
    (b : BatchValidationResult) (h : batchInv b) :
    batchInv (l.foldl (fun acc d => add_result acc (f d)) b) := by
  induction l generalizing b with
  | nil => exact h
  | cons d t ih => exact ih _ (batchInv_add_result (f d) h)

theorem results_foldl_add_result {α : Type} (f : α → ValidationResult) (l : List α)
    (b : BatchValidationResult) :
    (l.foldl (fun acc d => add_result acc (f d)) b).results = b.results ++ l.map f := by
  induction l generalizing b with
  | nil => simp
  | cons d t ih =>
    simp only [List.foldl_cons, ih, List.map_cons]
    simp [add_result]

theorem total_entities_foldl_add_result {α : Type} (f : α → ValidationResult)
    (l : List α) (b : BatchValidationResult) :
    (l.foldl (fun acc d => add_result acc (f d)) b).total_entities = b.total_entities := by
  induction l generalizing b with
  | nil => rfl
  | cons d t ih => simpa [add_result] using ih _

/-- C2: validate_batch produces one result per input entity in order (no early
abort), with valid + invalid = total = number of results and error/warning
totals equal to the per-result sums. -/
theorem C2_validate_batch_invariants (m : SchemaMap) (entity_type : String)
    (data_list : List (List (String × JValue))) (strict : Bool) :
    (validate_batch m entity_type data_list strict).total_entities = data_list.length ∧
    (validate_batch m entity_type data_list strict).results =
      data_list.map (fun d => validate_entity m entity_type d strict) ∧
    (validate_batch m entity_type data_list strict).valid_entities +
      (validate_batch m entity_type data_list strict).invalid_entities =
      (validate_batch m entity_type data_list strict).total_entities ∧
    (validate_batch m entity_type data_list strict).total_entities =
      (validate_batch m entity_type data_list strict).results.length ∧
    (validate_batch m entity_type data_list strict).total_errors =
      ((validate_batch m entity_type data_list strict).results.map (·.error_count)).sum ∧
    (validate_batch m entity_type data_list strict).total_warnings =
      ((validate_batch m entity_type data_list strict).results.map (·.warning_count)).sum := by
  have hres := results_foldl_add_result
    (fun d => validate_entity m entity_type d strict) data_list
    { total_entities := data_list.length }
  have htot := total_entities_foldl_add_result
    (fun d => validate_entity m entity_type d strict) data_list
    { total_entities := data_list.length }
  have hinv := batchInv_foldl (fun d => validate_entity m entity_type d strict)
    data_list { total_entities := data_list.length } (by unfold batchInv; simp)
  unfold validate_batch
  unfold batchInv at hinv
  obtain ⟨h1, h2, h3⟩ := hinv
  simp only [List.nil_append] at hres
  refine ⟨htot, hres, ?_, ?_, h2, h3⟩
  · rw [h1, hres, htot]
    simp
  · rw [htot, hres]
    simp

end BiR

namespace BiR

/-- Ontology URI of the Author class in the fixture schema. -/
def litAuthorURI : String := "http://literature-explorer.org/ontology#Author"

/-- Fixture: the Author class mapping (lit:Author owl:equivalentClass wd:Q482980). -/
def authorClassMapping : ClassMapping :=
  { ontology_uri := litAuthorURI
    ontology_local := "Author"
    wikidata_uri := "http://www.wikidata.org/entity/Q482980"
    wikidata_id := "Q482980"
    label := some "Author" }

/-- Fixture: name as a datatype property of Author with xsd:string range. -/
def namePM : PropertyMapping :=
  { ontology_uri := "http://literature-explorer.org/ontology#name"
    ontology_local := "name"
    wikidata_uri := "http://www.wikidata.org/prop/direct/P2561"
    wikidata_id := "P2561"
    property_type := "DatatypeProperty"
    domain := some litAuthorURI
    range := some xsdStringURI
    label := some "name" }

/-- Fixture: birthDate as a datatype property of Author with xsd:date range. -/
def birthDatePM : PropertyMapping :=
  { ontology_uri := "http://literature-explorer.org/ontology#birthDate"
    ontology_local := "birthDate"
    wikidata_uri := "http://www.wikidata.org/prop/direct/P569"
    wikidata_id := "P569"
    property_type := "DatatypeProperty"
    domain := some litAuthorURI
    range := some xsdDateURI
    label := some "birth date" }

/-- Fixture: birthPlace as an object property of Author. -/
def birthPlacePM : PropertyMapping :=
  { ontology_uri := "http://literature-explorer.org/ontology#birthPlace"
    ontology_local := "birthPlace"
    wikidata_uri := "http://www.wikidata.org/prop/direct/P19"
    wikidata_id := "P19"
    property_type := "ObjectProperty"
    domain := some litAuthorURI
    range := some "http://literature-explorer.org/ontology#Place"
    label := some "birth place" }

/-- Fixture schema with Author mapped and name/birthDate/birthPlace properties,
indexes populated exactly as extract_mappings would build them. -/
def fixtureSchema : SchemaInfo :=
  { class_mappings := [authorClassMapping]
    property_mappings := [namePM, birthDatePM, birthPlacePM]
    class_count := 1
    property_count := 3
    wikidata_to_ontology_class := [("Q482980", litAuthorURI)]
    ontology_to_wikidata_class := [(litAuthorURI, "Q482980"), ("Author", "Q482980")]
    wikidata_to_ontology_property :=
      [("P2561", namePM.ontology_uri), ("P569", birthDatePM.ontology_uri),
       ("P19", birthPlacePM.ontology_uri)]
    ontology_to_wikidata_property :=
      [(namePM.ontology_uri, "P2561"), ("name", "P2561"),
       (birthDatePM.ontology_uri, "P569"), ("birthDate", "P569"),
       (birthPlacePM.ontology_uri, "P19"), ("birthPlace", "P19")] }

/-- Fixture mapper over the fixture schema; the ontology fixture declares no
rdfs:subClassOf chains, so the transitive-subclass ASK always answers false. -/
def fixtureMapper : SchemaMap :=
  { schema := fixtureSchema, subclassOf := fun _ _ => false }

end BiR

namespace BiR

/-- The scenario input of the bare-year claim. -/
def bareYearData : List (String × JValue) :=
  [("qid", JValue.str "Q12345"), ("birthDate", JValue.str "1899")]

/-- C3 counterexample: validating \x7b"qid": "Q12345", "birthDate": "1899"\x7d as
Author produces no issue of type format at all — the bare-year value trips
the xsd:date regex first, yielding a type_mismatch WARNING, and then passes
the secondary date-specific check, so no format issue is ever emitted. -/
theorem C3_counterexample :
    ((validate_entity fixtureMapper "Author" bareYearData false).issues.filter
      (fun i => i.type == ValidationType.format)) = [] := by
  decide

/-- C3 amended: the bare-year birthDate is flagged with a type_mismatch WARNING
(not a format WARNING) on field birthDate; the value is neither silently
passed (the issue list also records the WARNING) nor rejected with an ERROR
(error_count stays 0, the remaining issues are INFO missing-property notes). -/
theorem C3_amended_birthdate_flagged :
    (validate_entity fixtureMapper "Author" bareYearData false).error_count = 0 ∧
    (validate_entity fixtureMapper "Author" bareYearData false).valid = true ∧
    ((validate_entity fixtureMapper "Author" bareYearData false).issues.map
      (fun i => (i.type, i.field, i.severity))) =
      [(ValidationType.type_mismatch, "birthDate", ValidationSeverity.warning),
       (ValidationType.missing_required, "name", ValidationSeverity.info),
       (ValidationType.missing_required, "birthPlace", ValidationSeverity.info)] := by
  refine ⟨by decide, by decide, by decide⟩

theorem mem_insertReplace {α : Type} {k : String} {v : α} {l : List (String × α)}
    {e : String × α} (h : e ∈ insertReplace k v l) : e = (k, v) ∨ e ∈ l := by
  induction l with
  | nil =>
    simp [insertReplace] at h
    exact Or.inl h
  | cons kv rest ih =>
    unfold insertReplace at h
    by_cases hk : kv.1 == k
    · rw [show (kv.1, kv.2) = kv from rfl] at h
      simp only [hk, if_pos] at h
      rcases List.mem_cons.mp h with h1 | h2
      · exact Or.inl h1
      · exact Or.inr (List.mem_cons_of_mem _ h2)
    · simp only [hk] at h
      rcases List.mem_cons.mp h with h1 | h2
      · subst h1
        exact Or.inr (List.mem_cons_self _ _)
      · rcases ih h2 with h3 | h4
        · exact Or.inl h3
        · exact Or.inr (List.mem_cons_of_mem _ h4)

theorem required_false_foldl (props : List PropertyMapping)
    (acc : List (String × PropInfo))
    (hacc : ∀ e ∈ acc, e.2.required = false) :
    ∀ e ∈ props.foldl
      (fun acc pm =>
        insertReplace pm.ontology_local
          { wikidata_property := pm.wikidata_id
            property_type := pm.property_type
            range := pm.range
            label := pm.label
            required := false } acc)
      acc, e.2.required = false := by
  induction props generalizing acc with
  | nil => exact hacc
  | cons pm rest ih =>
    intro e he
    refine ih _ ?_ e he
    intro e' he'
    rcases mem_insertReplace he' with h1 | h2
    · rw [h1]
    · exact hacc e' h2

/-- The scenario input of the missing-birthPlace claim. -/
def hemingwayData : List (String × JValue) :=
  [("qid", JValue.str "Q23434"), ("name", JValue.str "Ernest Hemingway"),
   ("birthDate", JValue.str "1899-07-21")]

/-- C7: every entry produced by get_expected_properties_for_class is marked
required = false; consequently the Hemingway entity whose only discrepancy
is the mapped-but-absent birthPlace yields exactly one missing_required
issue at INFO severity for birthPlace, zero ERROR issues, and valid = true. -/
theorem C7_expected_optional_and_scenario :
    (∀ (m : SchemaMap) (cid : String) (e : String × PropInfo),
        e ∈ get_expected_properties_for_class m cid → e.2.required = false) ∧
    (validate_entity fixtureMapper "Author" hemingwayData false).valid = true ∧
    (validate_entity fixtureMapper "Author" hemingwayData false).error_count = 0 ∧
    ((validate_entity fixtureMapper "Author" hemingwayData false).issues.map
      (fun i => (i.type, i.field, i.severity))) =
      [(ValidationType.missing_required, "birthPlace", ValidationSeverity.info)] := by
  refine ⟨?_, by decide, by decide, by decide⟩
  intro m cid e he
  unfold get_expected_properties_for_class at he
  cases hcm : get_class_mapping m cid with
  | none => rw [hcm] at he; simp at he
  | some cm =>
    rw [hcm] at he
    exact required_false_foldl _ _ (by intro e' he'; simp at he') e he

/-- The name entry of the fixture Author schema, as built by
get_expected_properties_for_class. -/
def namePropInfo : PropInfo :=
  { wikidata_property := "P2561"
    property_type := "DatatypeProperty"
    range := some xsdStringURI
    label := some "name" }

/-- Witness for C7: the name entry of the fixture Author schema is a concrete
member of the expected-property map and is marked not required. -/
theorem C7_witness :
    (("name", namePropInfo) ∈ get_expected_properties_for_class fixtureMapper "Author") ∧
    namePropInfo.required = false :=
  ⟨by decide,
   C7_expected_optional_and_scenario.1 fixtureMapper "Author" ("name", namePropInfo)
     (by decide)⟩

end BiR

namespace BiR

/-- C6: when a mapping shares none of its four identifier fields with another
mapping, lookup by any matching identifier form returns that mapping, and
an identifier matching no mapping yields none (no exception is possible:
both lookups are total functions); likewise for property mappings. -/
theorem C6_lookup_total :
    (∀ (m : SchemaMap) (cm : ClassMapping), cm ∈ m.schema.class_mappings →
      (∀ cm' ∈ m.schema.class_mappings, cm' ≠ cm →
        ∀ id : String, classMatches id cm → ¬ classMatches id cm') →
      ∀ id : String, classMatches id cm → get_class_mapping m id = some cm) ∧
    (∀ (m : SchemaMap) (id : String),
      (∀ cm ∈ m.schema.class_mappings, ¬ classMatches id cm) →
      get_class_mapping m id = none) ∧
    (∀ (m : SchemaMap) (pm : PropertyMapping), pm ∈ m.schema.property_mappings →
      (∀ pm' ∈ m.schema.property_mappings, pm' ≠ pm →
        ∀ id : String, propMatches id pm → ¬ propMatches id pm') →
      ∀ id : String, propMatches id pm → get_property_mapping m id = some pm) ∧
    (∀ (m : SchemaMap) (id : String),
      (∀ pm ∈ m.schema.property_mappings, ¬ propMatches id pm) →
      get_property_mapping m id = none) := by
  refine ⟨?_, ?_, ?_, ?_⟩
  · intro m cm hmem huniq id hmatch
    unfold get_class_mapping
    have hsome : (m.schema.class_mappings.find? (classMatches id)).isSome := by
      rw [List.find?_isSome]
      exact ⟨cm, hmem, hmatch⟩
    obtain ⟨y, hy⟩ := Option.isSome_iff_exists.mp hsome
    have hymem := List.mem_of_find?_eq_some hy
    have hymatch := List.find?_some hy
    by_cases hne : y = cm
    · rw [hy, hne]
    · exact absurd hymatch (huniq y hymem hne id hmatch)
  · intro m id hnone
    unfold get_class_mapping
    exact List.find?_eq_none.mpr hnone
  · intro m pm hmem huniq id hmatch
    unfold get_property_mapping
    have hsome : (m.schema.property_mappings.find? (propMatches id)).isSome := by
      rw [List.find?_isSome]
      exact ⟨pm, hmem, hmatch⟩
    obtain ⟨y, hy⟩ := Option.isSome_iff_exists.mp hsome
    have hymem := List.mem_of_find?_eq_some hy
    have hymatch := List.find?_some hy
    by_cases hne : y = pm
    · rw [hy, hne]
    · exact absurd hymatch (huniq y hymem hne id hmatch)
  · intro m id hnone
    unfold get_property_mapping
    exact List.find?_eq_none.mpr hnone

/-- Witness for C6: in the fixture schema, lookup of "Author" returns the
Author class mapping, lookup of the Wikidata id "P2561" returns the name
property mapping, and an unknown identifier returns none. -/
theorem C6_witness :
    get_class_mapping fixtureMapper "Author" = some authorClassMapping ∧
    get_property_mapping fixtureMapper "P2561" = some namePM ∧
    get_class_mapping fixtureMapper "Bogus" = none :=
  ⟨C6_lookup_total.1 fixtureMapper authorClassMapping (by decide)
      (fun cm' h hne => absurd (by simpa [fixtureSchema, fixtureMapper] using h) hne)
      "Author" (by decide),
   C6_lookup_total.2.2.1 fixtureMapper namePM (by decide)
      (fun pm' h hne id hm => by
        have hcases : pm' = namePM ∨ pm' = birthDatePM ∨ pm' = birthPlacePM := by
          simpa [fixtureSchema, fixtureMapper] using h
        have hid : ((id = "name" ∨ id = "http://literature-explorer.org/ontology#name") ∨
            id = "P2561") ∨ id = "http://www.wikidata.org/prop/direct/P2561" := by
          simpa [propMatches, namePM] using hm
        rcases hcases with h1 | h1 | h1
        · exact absurd h1 hne
        · subst h1
          rcases hid with ((h2 | h2) | h2) | h2 <;> subst h2 <;> decide
        · subst h1
          rcases hid with ((h2 | h2) | h2) | h2 <;> subst h2 <;> decide)
      "P2561" (by decide),
   C6_lookup_total.2.1 fixtureMapper "Bogus" (by
     intro cm h
     have : cm = authorClassMapping := by simpa [fixtureSchema, fixtureMapper] using h
     subst this
     decide)⟩

end BiR

namespace BiR

/-- One result row of an ontology SPARQL query: variable name → bound value
(only the "value" entry of each binding dict is ever consulted by the
extraction code, so a row is modelled as that projection). -/
abbrev QueryRow := List (String × String)

/-- row.get(k, \x7b\x7d).get("value", ""). -/
def rowGetValue (row : QueryRow) (k : String) : String :=
  ((row.find? (fun kv => kv.1 == k)).map (·.2)).getD ""

/-- row.get(k, \x7b\x7d).get("value") if row.get(k) else None. -/
def rowGetOpt (row : QueryRow) (k : String) : Option String :=
  (row.find? (fun kv => kv.1 == k)).map (·.2)

/-- SchemaMapper._extract_class_mappings applied to the rows returned by the
equivalentClass query (the SPARQL execution itself is the oracle input). -/
def extract_class_mappings (rows : List QueryRow) : List ClassMapping :=
  rows.filterMap (fun row =>
    let ontology_uri := rowGetValue row "class"
    let wikidata_uri := rowGetValue row "equivalent"
    if !ontology_uri.isEmpty && !wikidata_uri.isEmpty then
      some
        { ontology_uri := ontology_uri
          ontology_local := extract_local_name ontology_uri
          wikidata_uri := wikidata_uri
          wikidata_id := extract_wikidata_id wikidata_uri
          label := rowGetOpt row "label"
          parent_class := rowGetOpt row "parent" }
    else none)

/-- SchemaMapper._extract_property_mappings applied to the rows returned by
the equivalentProperty query. -/
def extract_property_mappings (rows : List QueryRow) : List PropertyMapping :=
  rows.filterMap (fun row =>
    let ontology_uri := rowGetValue row "property"
    let wikidata_uri := rowGetValue row "equivalent"
    if !ontology_uri.isEmpty && !wikidata_uri.isEmpty then
      some
        { ontology_uri := ontology_uri
          ontology_local := extract_local_name ontology_uri
          wikidata_uri := wikidata_uri
          wikidata_id := extract_wikidata_property_id wikidata_uri
          property_type := rowGetValue row "type"
          domain := rowGetOpt row "domain"
          range := rowGetOpt row "range"
          label := rowGetOpt row "label" }
    else none)

/-- The SchemaInfo built by extract_mappings from the two query results,
including the four lookup indexes (dict assignments in source order). -/
def buildSchemaInfo (classRows propRows : List QueryRow) : SchemaInfo :=
  let class_mappings := extract_class_mappings classRows
  let property_mappings := extract_property_mappings propRows
  { class_mappings := class_mappings
    property_mappings := property_mappings
    class_count := class_mappings.length
    property_count := property_mappings.length
    wikidata_to_ontology_class :=
      class_mappings.foldl (fun d cm => insertReplace cm.wikidata_id cm.ontology_uri d) []
    ontology_to_wikidata_class :=
      class_mappings.foldl
        (fun d cm => insertReplace cm.ontology_local cm.wikidata_id
          (insertReplace cm.ontology_uri cm.wikidata_id d)) []
    wikidata_to_ontology_property :=
      property_mappings.foldl (fun d pm => insertReplace pm.wikidata_id pm.ontology_uri d) []
    ontology_to_wikidata_property :=
      property_mappings.foldl
        (fun d pm => insertReplace pm.ontology_local pm.wikidata_id
          (insertReplace pm.ontology_uri pm.wikidata_id d)) [] }

/-- SchemaMapper.extract_mappings: return the cached SchemaInfo unless a
refresh is forced; otherwise rebuild from the (unchanged) ontology rows and
cache the result. Returns the SchemaInfo and the new cache state. -/
def extract_mappings (classRows propRows : List QueryRow)
    (cache : Option SchemaInfo) (force_refresh : Bool) :
    SchemaInfo × Option SchemaInfo :=
  match cache, force_refresh with
  | some si, false => (si, some si)
  | _, _ =>
    let si := buildSchemaInfo classRows propRows
    (si, some si)

/-- C8: starting from an empty cache, a second extract_mappings call without
force_refresh returns the same SchemaInfo (and cache) as the first call,
and a forced refresh over the unchanged ontology rows rebuilds a SchemaInfo
equal in content to the first. -/
theorem C8_extract_mappings_idempotent (classRows propRows : List QueryRow) :
    (extract_mappings classRows propRows
      (extract_mappings classRows propRows none false).2 false).1 =
      (extract_mappings classRows propRows none false).1 ∧
    (extract_mappings classRows propRows
      (extract_mappings classRows propRows none false).2 false).2 =
      (extract_mappings classRows propRows none false).2 ∧
    (extract_mappings classRows propRows
      (extract_mappings classRows propRows none false).2 true).1 =
      (extract_mappings classRows propRows none false).1 :=
  ⟨rfl, rfl, rfl⟩

end BiR

namespace BiR

theorem add_issue_issues (r : ValidationResult) (i : ValidationIssue) :
    (add_issue r i).issues = r.issues ++ [i] := by
  unfold add_issue
  cases i.severity <;> rfl

theorem foldl_add_issue_issues (l : List ValidationIssue) (r : ValidationResult) :
    (l.foldl add_issue r).issues = r.issues ++ l := by
  induction l generalizing r with
  | nil => simp
  | cons i t ih =>
    rw [List.foldl_cons, ih, add_issue_issues]
    simp

/-- The concatenated issue output of the field loop of validate_entity. -/
def fieldLoopIssues (m : SchemaMap) (expected : List (String × PropInfo))
    (strict : Bool) : List (String × JValue) → List ValidationIssue
  | [] => []
  | kv :: rest =>
    fieldIssues m expected strict kv ++ fieldLoopIssues m expected strict rest

theorem fieldLoopIssues_append (m : SchemaMap) (expected : List (String × PropInfo))
    (strict : Bool) (l1 l2 : List (String × JValue)) :
    fieldLoopIssues m expected strict (l1 ++ l2) =
      fieldLoopIssues m expected strict l1 ++ fieldLoopIssues m expected strict l2 := by
  induction l1 with
  | nil => simp [fieldLoopIssues]
  | cons kv rest ih => simp [fieldLoopIssues, ih]

theorem foldl_processField_issues (m : SchemaMap) (expected : List (String × PropInfo))
    (strict : Bool) (data : List (String × JValue)) (r : ValidationResult) :
    (data.foldl (processField m expected strict) r).issues =
      r.issues ++ fieldLoopIssues m expected strict data := by
  induction data generalizing r with
  | nil => simp [fieldLoopIssues]
  | cons kv rest ih =>
    rw [List.foldl_cons, ih]
    unfold processField
    rw [foldl_add_issue_issues]
    simp [fieldLoopIssues]

theorem validate_entity_issues (m : SchemaMap) (entity_type : String)
    (data : List (String × JValue)) (strict : Bool) (cm : ClassMapping)
    (hcm : get_class_mapping m entity_type = some cm) :
    (validate_entity m entity_type data strict).issues =
      fieldLoopIssues m (get_expected_properties_for_class m entity_type) strict data ++
        missingIssues (get_expected_properties_for_class m entity_type)
          (data.map (·.1)) strict := by
  unfold validate_entity
  rw [hcm]
  rw [foldl_add_issue_issues, foldl_processField_issues]
  simp [mkValidationResult]

theorem missingIssues_congr (expected : List (String × PropInfo)) (strict : Bool)
    (keys1 keys2 : List String)
    (h : ∀ kv ∈ expected, keys1.contains kv.1 = keys2.contains kv.1) :
    missingIssues expected keys1 strict = missingIssues expected keys2 strict := by
  induction expected with
  | nil => rfl
  | cons kv rest ih =>
    unfold missingIssues
    simp only [List.filterMap_cons]
    rw [h kv (List.mem_cons_self _ _)]
    have hrest := ih (fun kv' h' => h kv' (List.mem_cons_of_mem _ h'))
    unfold missingIssues at hrest
    rw [hrest]

/-- C10: a field outside the meta set that is not an expected local property
name but resolves through translate_from_wikidata to a truthy (non-empty)
local name is accepted unconditionally: its per-field validation emits no
issue regardless of the value, and the overall issue list equals that of
the same entity with the field removed. -/
theorem C10_unmapped_wikidata_field_unchecked (m : SchemaMap) (entity_type : String)
    (f : String) (v : JValue) (pre post : List (String × JValue)) (strict : Bool)
    (hknown : (get_class_mapping m entity_type).isSome = true)
    (hmeta : metaFields.contains f = false)
    (hunexp : assocGet (get_expected_properties_for_class m entity_type) f = none)
    (htrans : optStrTruthy (translate_from_wikidata m f) = true) :
    fieldIssues m (get_expected_properties_for_class m entity_type) strict (f, v) = [] ∧
    (validate_entity m entity_type (pre ++ (f, v) :: post) strict).issues =
      (validate_entity m entity_type (pre ++ post) strict).issues := by
  obtain ⟨cm, hcm⟩ := Option.isSome_iff_exists.mp hknown
  have hfield : fieldIssues m (get_expected_properties_for_class m entity_type)
      strict (f, v) = [] := by
    unfold fieldIssues
    simp only [hmeta, Bool.false_eq_true, if_false, hunexp, htrans, if_true]
  refine ⟨hfield, ?_⟩
  rw [validate_entity_issues m entity_type _ strict cm hcm,
    validate_entity_issues m entity_type _ strict cm hcm]
  have hcontains : ∀ (A B : List String) (p : String), p ≠ f →
      (A ++ f :: B).contains p = (A ++ B).contains p := by
    intro A B p hp
    simp [hp]
  have hkeys : ∀ kv ∈ get_expected_properties_for_class m entity_type,
      ((pre ++ (f, v) :: post).map (·.1)).contains kv.1 =
        ((pre ++ post).map (·.1)).contains kv.1 := by
    intro kv hkv
    have hne : kv.1 ≠ f := by
      intro heq
      have hfind : ((get_expected_properties_for_class m entity_type).find?
          (fun e => e.1 == f)).isSome := by
        rw [List.find?_isSome]
        exact ⟨kv, hkv, by simp [heq]⟩
      have hn : assocGet (get_expected_properties_for_class m entity_type) f = none :=
        hunexp
      unfold assocGet at hn
      rw [Option.map_eq_none'] at hn
      rw [hn] at hfind
      simp at hfind
    simpa [List.map_append, List.map_cons] using
      hcontains (pre.map (·.1)) (post.map (·.1)) kv.1 hne
  rw [missingIssues_congr _ strict _ _ hkeys]
  rw [fieldLoopIssues_append, fieldLoopIssues_append]
  show _ ++ (fieldIssues _ _ _ (f, v) ++ _) ++ _ = _
  rw [hfield]
  simp

/-- Witness for C10: in the fixture schema the raw Wikidata id P569 is not an
expected local property name of Author but translates back to the truthy
local name birthDate, so an entity carrying it gains no issue from that
field. -/
theorem C10_witness :
    ((get_class_mapping fixtureMapper "Author").isSome = true) ∧
    (metaFields.contains "P569" = false) ∧
    (assocGet (get_expected_properties_for_class fixtureMapper "Author") "P569" = none) ∧
    (optStrTruthy (translate_from_wikidata fixtureMapper "P569") = true) ∧
    (validate_entity fixtureMapper "Author"
        ([("qid", JValue.str "Q12345")] ++ ("P569", JValue.str "1899-07-21") :: []) false).issues =
      (validate_entity fixtureMapper "Author" ([("qid", JValue.str "Q12345")] ++ []) false).issues :=
  ⟨by decide, by decide, by decide, by decide,
   (C10_unmapped_wikidata_field_unchecked fixtureMapper "Author" "P569"
     (JValue.str "1899-07-21") [("qid", JValue.str "Q12345")] [] false
     (by decide) (by decide) (by decide) (by decide)).2⟩

end BiR

namespace BiR

theorem str_data_append (a b : String) : (a ++ b).data = a.data ++ b.data := rfl

theorem infix_of_mem_joinSep (sep : String) (l : List String) (x : String)
    (h : x ∈ l) : x.data <:+: (joinSep sep l).data := by
  induction l with
  | nil => cases h
  | cons y t ih =>
    rcases List.mem_cons.mp h with h1 | h2
    · subst h1
      cases t with
      | nil => exact List.infix_refl _
      | cons z t' =>
        show x.data <:+: (x ++ sep ++ joinSep sep (z :: t')).data
        rw [str_data_append, str_data_append, List.append_assoc]
        exact (List.prefix_append _ _).isInfix
    · cases t with
      | nil => cases h2
      | cons z t' =>
        show x.data <:+: (y ++ sep ++ joinSep sep (z :: t')).data
        rw [str_data_append, str_data_append]
        exact (ih h2).trans (List.suffix_append _ _).isInfix

theorem clause_in_query (clause part : String) (parts : List String)
    (hpart : part ∈ parts) (hsub : clause.data <:+: part.data) :
    clause.data <:+: (joinSep "\n" parts).data :=
  hsub.trans (infix_of_mem_joinSep "\n" parts part hpart)

theorem infix_indent (clause : String) (pats : List String) (hmem : clause ∈ pats) :
    clause.data <:+: ("  " ++ joinSep "\n  " pats).data := by
  rw [str_data_append]
  exact (infix_of_mem_joinSep _ _ _ hmem).trans (List.suffix_append _ _).isInfix

theorem infix_filter (clause : String) (filters : List String) (hmem : clause ∈ filters) :
    clause.data <:+: ("  FILTER(" ++ joinSep " && " filters ++ ")").data := by
  rw [str_data_append, str_data_append]
  exact (infix_of_mem_joinSep _ _ _ hmem).trans (List.infix_append _ _ _)

/-- The SPARQLGenerator.WIKIDATA_PREFIXES constant (triple-quoted in source,
hence the surrounding newlines). -/
def WIKIDATA_PREFIXES : String :=
  "\nPREFIX wd: <http://www.wikidata.org/entity/>\nPREFIX wdt: <http://www.wikidata.org/prop/direct/>\nPREFIX wikibase: <http://wikiba.se/ontology#>\nPREFIX bd: <http://www.bigdata.com/rdf#>\nPREFIX rdfs: <http://www.w3.org/2000/01/rdf-schema#>\nPREFIX schema: <http://schema.org/>\n"

/-- The label SERVICE clause line appended by the generators. -/
def serviceLabelLine : String :=
  "  SERVICE wikibase:label \x7b bd:serviceParam wikibase:language \"[AUTO_LANGUAGE],en\". \x7d"

/-- Truthiness of an optional int (Python `if year_start:`): 0 is falsy. -/
def optIntTruthy : Option Int → Bool
  | none => false
  | some n => n != 0

/-- SPARQLGenerator.generate_entity_query; the ValueError for an unknown
entity type is modelled as Except.error. -/
def generate_entity_query (m : SchemaMap) (entity_type : String) (qid : Option String)
    (include_labels : Bool) (limit : Int) : Except String String :=
  match get_class_mapping m entity_type with
  | none => Except.error ("Unknown entity type: " ++ entity_type)
  | some class_mapping =>
    let properties := get_properties_for_class m entity_type
    let patterns :=
      if optStrTruthy qid then ["BIND(wd:" ++ qid.getD "" ++ " AS ?item)"]
      else ["?item wdt:P31/wdt:P279* wd:" ++ class_mapping.wikidata_id ++ " ."]
    let step := fun (acc : List String × List String) (prop : PropertyMapping) =>
      let var_name := "?" ++ prop.ontology_local
      let opt := "OPTIONAL \x7b ?item wdt:" ++ prop.wikidata_id ++ " " ++ var_name ++ " . \x7d"
      if prop.property_type == "ObjectProperty" then
        (acc.1 ++ [var_name, var_name ++ "Label"], acc.2 ++ [opt])
      else
        (acc.1 ++ [var_name], acc.2 ++ [opt])
    let sv := properties.foldl step (["?item", "?itemLabel"], [])
    let query_parts := [WIKIDATA_PREFIXES,
      "SELECT DISTINCT " ++ joinSep " " sv.1,
      "WHERE \x7b",
      "  " ++ joinSep "\n  " patterns,
      "  " ++ joinSep "\n  " sv.2]
    let query_parts := if include_labels then query_parts ++ [serviceLabelLine] else query_parts
    let query_parts := query_parts ++ ["\x7d", "LIMIT " ++ toString limit]
    Except.ok (joinSep "\n" query_parts)

/-- The final query assembly shared verbatim by the author and work
generators: prefixes, SELECT line, WHERE block of patterns and OPTIONALs,
optional FILTER line, label service, closing brace, LIMIT and OFFSET. -/
def buildFilteredQuery (select_vars patterns optionals filters : List String)
    (limit offset : Int) : String :=
  let query_parts := [WIKIDATA_PREFIXES,
    "SELECT DISTINCT " ++ joinSep " " select_vars,
    "WHERE \x7b",
    "  " ++ joinSep "\n  " patterns,
    "  " ++ joinSep "\n  " optionals]
  let query_parts := query_parts ++
    (if !filters.isEmpty then ["  FILTER(" ++ joinSep " && " filters ++ ")"] else [])
  let query_parts := query_parts ++ [serviceLabelLine, "\x7d", "LIMIT " ++ toString limit]
  let query_parts := query_parts ++ (if offset > 0 then ["OFFSET " ++ toString offset] else [])
  joinSep "\n" query_parts

/-- Pattern list of generate_author_query: the BIND or disjunctive-membership
pattern plus the requested equality filters. -/
def authorPatterns (author_qid country_qid movement_qid : Option String) : List String :=
  (if optStrTruthy author_qid then ["BIND(wd:" ++ author_qid.getD "" ++ " AS ?author)"]
   else ["\x7b ?author wdt:P31 wd:Q482980 \x7d UNION \x7b ?author wdt:P106 wd:Q36180 \x7d"]) ++
  (if optStrTruthy country_qid then ["?author wdt:P27 wd:" ++ country_qid.getD "" ++ " ."]
   else []) ++
  (if optStrTruthy movement_qid then ["?author wdt:P135 wd:" ++ movement_qid.getD "" ++ " ."]
   else [])

/-- OPTIONAL block of generate_author_query. -/
def authorOptionals : List String :=
  ["OPTIONAL \x7b ?author wdt:P569 ?birthDate . \x7d",
   "OPTIONAL \x7b ?author wdt:P570 ?deathDate . \x7d",
   "OPTIONAL \x7b ?author wdt:P19 ?birthPlace . \x7d",
   "OPTIONAL \x7b ?author wdt:P20 ?deathPlace . \x7d",
   "OPTIONAL \x7b ?author wdt:P27 ?nationality . \x7d",
   "OPTIONAL \x7b ?author wdt:P135 ?movement . \x7d",
   "OPTIONAL \x7b ?author wdt:P18 ?image . \x7d"]

/-- Birth-year range filters of generate_author_query (a zero year is falsy in
Python and silently skipped). -/
def authorFilters (year_start year_end : Option Int) : List String :=
  (if optIntTruthy year_start then ["YEAR(?birthDate) >= " ++ toString (year_start.getD 0)]
   else []) ++
  (if optIntTruthy year_end then ["YEAR(?birthDate) <= " ++ toString (year_end.getD 0)]
   else [])

/-- SELECT variables of generate_author_query. -/
def authorSelectVars : List String :=
  ["?author", "?authorLabel", "?authorDescription",
   "?birthDate", "?deathDate", "?birthPlace", "?birthPlaceLabel",
   "?deathPlace", "?deathPlaceLabel", "?nationality", "?nationalityLabel",
   "?movement", "?movementLabel", "?image"]

/-- SPARQLGenerator.generate_author_query (author_props is computed from the
mapper and never used afterwards, exactly as in the source). -/
def generate_author_query (m : SchemaMap) (author_qid country_qid movement_qid : Option String)
    (year_start year_end : Option Int) (limit offset : Int) : String :=
  let _author_props := get_expected_properties_for_class m "Author"
  buildFilteredQuery authorSelectVars (authorPatterns author_qid country_qid movement_qid)
    authorOptionals (authorFilters year_start year_end) limit offset

/-- Pattern list of generate_work_query. -/
def workPatterns (work_qid author_qid genre_qid : Option String) : List String :=
  (if optStrTruthy work_qid then ["BIND(wd:" ++ work_qid.getD "" ++ " AS ?work)"]
   else ["?work wdt:P31/wdt:P279* wd:Q7725634 ."]) ++
  (if optStrTruthy author_qid then ["?work wdt:P50 wd:" ++ author_qid.getD "" ++ " ."]
   else []) ++
  (if optStrTruthy genre_qid then ["?work wdt:P136 wd:" ++ genre_qid.getD "" ++ " ."]
   else [])

/-- OPTIONAL block of generate_work_query. -/
def workOptionals : List String :=
  ["OPTIONAL \x7b ?work wdt:P50 ?author . \x7d",
   "OPTIONAL \x7b ?work wdt:P577 ?publicationDate . \x7d",
   "OPTIONAL \x7b ?work wdt:P136 ?genre . \x7d",
   "OPTIONAL \x7b ?work wdt:P840 ?narrativeLocation . \x7d",
   "OPTIONAL \x7b ?work wdt:P407 ?language . \x7d"]

/-- Publication-year range filters of generate_work_query. -/
def workFilters (year_start year_end : Option Int) : List String :=
  (if optIntTruthy year_start then ["YEAR(?publicationDate) >= " ++ toString (year_start.getD 0)]
   else []) ++
  (if optIntTruthy year_end then ["YEAR(?publicationDate) <= " ++ toString (year_end.getD 0)]
   else [])

/-- SELECT variables of generate_work_query. -/
def workSelectVars : List String :=
  ["?work", "?workLabel", "?workDescription",
   "?author", "?authorLabel", "?publicationDate", "?genre", "?genreLabel",
   "?narrativeLocation", "?narrativeLocationLabel", "?language", "?languageLabel"]

/-- SPARQLGenerator.generate_work_query. -/
def generate_work_query (work_qid author_qid genre_qid : Option String)
    (year_start year_end : Option Int) (limit offset : Int) : String :=
  buildFilteredQuery workSelectVars (workPatterns work_qid author_qid genre_qid)
    workOptionals (workFilters year_start year_end) limit offset

end BiR

namespace BiR

/-- Executable substring check used to decide concrete containment facts. -/
def containsB (sub : List Char) : List Char → Bool
  | [] => sub.isEmpty
  | c :: rest => sub.isPrefixOf (c :: rest) || containsB sub rest

theorem containsB_iff (sub l : List Char) : containsB sub l = true ↔ sub <:+: l := by
  induction l with
  | nil => simp [containsB, List.isEmpty_iff, List.infix_nil]
  | cons c rest ih =>
    rw [containsB, List.infix_cons_iff]
    simp [List.isPrefixOf_iff_prefix, ih]

theorem buildFilteredQuery_contains_pattern (sv pats opts filts : List String)
    (lim off : Int) (clause : String) (h : clause ∈ pats) :
    strContains (buildFilteredQuery sv pats opts filts lim off) clause := by
  unfold buildFilteredQuery
  refine clause_in_query clause ("  " ++ joinSep "\n  " pats) _ ?_ (infix_indent _ _ h)
  simp

theorem buildFilteredQuery_contains_filter (sv pats opts filts : List String)
    (lim off : Int) (clause : String) (h : clause ∈ filts) :
    strContains (buildFilteredQuery sv pats opts filts lim off) clause := by
  unfold buildFilteredQuery
  have hne : filts.isEmpty = false := by
    cases filts with
    | nil => cases h
    | cons a t => rfl
  simp only [hne, Bool.not_false, if_true]
  refine clause_in_query clause ("  FILTER(" ++ joinSep " && " filts ++ ")") _ ?_
    (infix_filter _ _ h)
  simp

/-- Truthiness of a non-empty option string. -/
theorem optStrTruthy_some {c : String} (hc : c ≠ "") : optStrTruthy (some c) = true := by
  cases h : c.isEmpty with
  | false => simp [optStrTruthy, h]
  | true => exact absurd ((String.isEmpty_iff c).mp h) hc

/-- Truthiness of a non-zero option int. -/
theorem optIntTruthy_some {y : Int} (hy : y ≠ 0) : optIntTruthy (some y) = true := by
  simp [optIntTruthy, hy]

/-- C4 amended: every supplied filter value that is truthy in Python -- a
non-empty QID string, a non-zero year -- yields the corresponding triple
pattern or FILTER clause in the generated author/work query text; a
supplied empty string or zero year is falsy and silently skipped (see the
counterexample). -/
theorem C4_amended_truthy_filters_present (m : SchemaMap)
    (q1 q2 q3 : Option String) (ys ye : Option Int) (lim off : Int) :
    (∀ c : String, c ≠ "" →
      strContains (generate_author_query m q1 (some c) q3 ys ye lim off)
        ("?author wdt:P27 wd:" ++ c ++ " .")) ∧
    (∀ c : String, c ≠ "" →
      strContains (generate_author_query m q1 q2 (some c) ys ye lim off)
        ("?author wdt:P135 wd:" ++ c ++ " .")) ∧
    (∀ y : Int, y ≠ 0 →
      strContains (generate_author_query m q1 q2 q3 (some y) ye lim off)
        ("YEAR(?birthDate) >= " ++ toString y)) ∧
    (∀ y : Int, y ≠ 0 →
      strContains (generate_author_query m q1 q2 q3 ys (some y) lim off)
        ("YEAR(?birthDate) <= " ++ toString y)) ∧
    (∀ c : String, c ≠ "" →
      strContains (generate_work_query q1 (some c) q3 ys ye lim off)
        ("?work wdt:P50 wd:" ++ c ++ " .")) ∧
    (∀ c : String, c ≠ "" →
      strContains (generate_work_query q1 q2 (some c) ys ye lim off)
        ("?work wdt:P136 wd:" ++ c ++ " .")) ∧
    (∀ y : Int, y ≠ 0 →
      strContains (generate_work_query q1 q2 q3 (some y) ye lim off)
        ("YEAR(?publicationDate) >= " ++ toString y)) ∧
    (∀ y : Int, y ≠ 0 →
      strContains (generate_work_query q1 q2 q3 ys (some y) lim off)
        ("YEAR(?publicationDate) <= " ++ toString y)) := by
  refine ⟨?_, ?_, ?_, ?_, ?_, ?_, ?_, ?_⟩
  · intro c hc
    unfold generate_author_query
    apply buildFilteredQuery_contains_pattern
    unfold authorPatterns
    simp [optStrTruthy_some hc]
  · intro c hc
    unfold generate_author_query
    apply buildFilteredQuery_contains_pattern
    unfold authorPatterns
    simp [optStrTruthy_some hc]
  · intro y hy
    unfold generate_author_query
    apply buildFilteredQuery_contains_filter
    unfold authorFilters
    simp [optIntTruthy_some hy]
  · intro y hy
    unfold generate_author_query
    apply buildFilteredQuery_contains_filter
    unfold authorFilters
    simp [optIntTruthy_some hy]
  · intro c hc
    unfold generate_work_query
    apply buildFilteredQuery_contains_pattern
    unfold workPatterns
    simp [optStrTruthy_some hc]
  · intro c hc
    unfold generate_work_query
    apply buildFilteredQuery_contains_pattern
    unfold workPatterns
    simp [optStrTruthy_some hc]
  · intro y hy
    unfold generate_work_query
    apply buildFilteredQuery_contains_filter
    unfold workFilters
    simp [optIntTruthy_some hy]
  · intro y hy
    unfold generate_work_query
    apply buildFilteredQuery_contains_filter
    unfold workFilters
    simp [optIntTruthy_some hy]

set_option maxRecDepth 8000

/-- C4 counterexample: year_start = 0 is a legal int value, yet the generated
author query contains no corresponding FILTER clause at all -- the Python
truthiness test `if year_start:` silently drops the requested filter. -/
theorem C4_counterexample :
    ¬ strContains (generate_author_query fixtureMapper none none none (some 0) none 100 0)
      ("YEAR(?birthDate) >= " ++ toString (0 : Int)) := by
  rw [strContains, ← containsB_iff]
  decide

/-- Witness for C4: a concrete non-empty country QID produces its triple
pattern in the generated author query. -/
theorem C4_witness :
    ("Q30" ≠ "") ∧
    strContains (generate_author_query fixtureMapper none (some "Q30") none none none 100 0)
      ("?author wdt:P27 wd:" ++ "Q30" ++ " .") :=
  ⟨by decide,
   (C4_amended_truthy_filters_present fixtureMapper none none none none none 100 0).1
     "Q30" (by decide)⟩

/-- The entity query generated for the fixture Author with qid Q23434. -/
def entityQueryQ23434 : Except String String :=
  generate_entity_query fixtureMapper "Author" (some "Q23434") true 100

/-- C5: an entity type with no class mapping raises the Unknown-entity-type
ValueError (modelled as Except.error), and the query for a mapped type with
an explicit qid binds the item directly and carries no instance-of pattern. -/
theorem C5_entity_query_error_and_bind :
    (∀ (m : SchemaMap) (entity_type : String) (qid : Option String)
        (include_labels : Bool) (limit : Int),
      get_class_mapping m entity_type = none →
      generate_entity_query m entity_type qid include_labels limit =
        Except.error ("Unknown entity type: " ++ entity_type)) ∧
    entityQueryQ23434.isOk = true ∧
    strContains (entityQueryQ23434.toOption.getD "") "BIND(wd:Q23434 AS ?item)" ∧
    ¬ strContains (entityQueryQ23434.toOption.getD "") "wdt:P31/wdt:P279*" := by
  refine ⟨?_, by decide, ?_, ?_⟩
  · intro m entity_type qid include_labels limit h
    unfold generate_entity_query
    rw [h]
  · rw [strContains, ← containsB_iff]
    decide
  · rw [strContains, ← containsB_iff]
    decide

/-- Witness for C5: the fixture schema maps no "Bogus" class, and the
generator errors on it exactly as the theorem states. -/
theorem C5_witness :
    get_class_mapping fixtureMapper "Bogus" = none ∧
    generate_entity_query fixtureMapper "Bogus" none true 100 =
      Except.error ("Unknown entity type: " ++ "Bogus") :=
  ⟨by decide,
   C5_entity_query_error_and_bind.1 fixtureMapper "Bogus" none true 100 (by decide)⟩

end BiR

namespace BiR

/-- SHACL severity levels (spec §3: Violation, Warning, Info). -/
inductive SHACLSeverity where
  | violation
  | warning
  | info
deriving DecidableEq

/-- A SHACL validation violation as constructed by shacl_validator.py:
focus node, optional result path/value/source constraint, source shape,
severity and message. -/
structure SHACLValidationViolation where
  focus_node : String
  result_path : Option String := none
  value : Option String := none
  source_shape : String
  source_constraint : Option String := none
  severity : SHACLSeverity
  message : String
deriving DecidableEq

/-- Modelled from the spec: the SHACLValidationResult model class is imported
by shacl_validator.py from app.models.validation, but that portion of the
models module is not present under src/. Per spec §3/§4.5 the result is a
structured object holding the conformance flag, the violation list and
per-severity counters (the wall-clock validation_time_ms field is omitted). -/
structure SHACLValidationResult where
  conforms : Bool
  violations : List SHACLValidationViolation := []
  shapes_used : List String := []
  violation_count : Nat := 0
  warning_count : Nat := 0
  info_count : Nat := 0
deriving DecidableEq

/-- Modelled from the spec: add_violation appends the violation and updates
the counter of its severity (the aggregation contract mirroring
ValidationResult.add_issue, spec §3). -/
def add_violation (r : SHACLValidationResult) (v : SHACLValidationViolation) :
    SHACLValidationResult :=
  let r := { r with violations := r.violations ++ [v] }
  match v.severity with
  | .violation => { r with violation_count := r.violation_count + 1 }
  | .warning => { r with warning_count := r.warning_count + 1 }
  | .info => { r with info_count := r.info_count + 1 }

/-- Outcomes of the two external boundary calls made by validate_rdf: the RDF
parse of the input data string and the pyshacl engine run (its conforms flag
together with the violations extracted from the results graph). Either call
may throw, modelled as Except.error carrying the exception text. -/
structure ShaclOutcome where
  parse : Except String Unit
  engine : Except String (Bool × List SHACLValidationViolation)

/-- The synthetic violation reporting an RDF parse failure. -/
def parseFailViolation (e : String) : SHACLValidationViolation :=
  { focus_node := "data_graph"
    source_shape := "parsing"
    severity := .violation
    message := "Failed to parse RDF data: " ++ e }

/-- The synthetic violation reporting a SHACL engine exception. -/
def engineFailViolation (e : String) : SHACLValidationViolation :=
  { focus_node := "validation"
    source_shape := "shacl_engine"
    severity := .violation
    message := "SHACL validation error: " ++ e }

/-- Truthiness of an optional shape-name list (Python `target_shapes or ...`). -/
def optListTruthy : Option (List String) → Bool
  | none => false
  | some l => !l.isEmpty

/-- SHACLValidator.validate_rdf as a total function of the boundary outcomes:
a parse failure or an engine exception is converted into a single
VIOLATION-severity issue on a conforms=false result; otherwise the engine
report is folded into the result via add_violation. No path raises. -/
def validate_rdf (o : ShaclOutcome) (target_shapes : Option (List String))
    (all_shape_names : List String) : SHACLValidationResult :=
  match o.parse with
  | .error e =>
    add_violation { conforms := false, shapes_used := [] } (parseFailViolation e)
  | .ok _ =>
    match o.engine with
    | .error e =>
      add_violation
        { conforms := false
          shapes_used := if optListTruthy target_shapes then target_shapes.getD [] else [] }
        (engineFailViolation e)
    | .ok (conforms, violations) =>
      violations.foldl add_violation
        { conforms := conforms
          shapes_used :=
            if optListTruthy target_shapes then target_shapes.getD []
            else all_shape_names }

/-- C9: validate_rdf is total over malformed input -- a parse failure yields a
structured result with conforms = false and exactly one VIOLATION-severity
issue reporting the parse error, and an engine exception is caught and
converted into a single VIOLATION-severity issue on a well-formed result. -/
theorem C9_validate_rdf_error_paths (o : ShaclOutcome)
    (target_shapes : Option (List String)) (all_shape_names : List String) :
    (∀ e : String, o.parse = Except.error e →
      (validate_rdf o target_shapes all_shape_names).conforms = false ∧
      (validate_rdf o target_shapes all_shape_names).violations = [parseFailViolation e] ∧
      (parseFailViolation e).severity = SHACLSeverity.violation ∧
      (validate_rdf o target_shapes all_shape_names).violation_count = 1) ∧
    (∀ e : String, o.parse = Except.ok () → o.engine = Except.error e →
      (validate_rdf o target_shapes all_shape_names).conforms = false ∧
      (validate_rdf o target_shapes all_shape_names).violations = [engineFailViolation e] ∧
      (engineFailViolation e).severity = SHACLSeverity.violation ∧
      (validate_rdf o target_shapes all_shape_names).violation_count = 1) := by
  constructor
  · intro e he
    unfold validate_rdf
    rw [he]
    refine ⟨rfl, rfl, rfl, rfl⟩
  · intro e hp he
    unfold validate_rdf
    rw [hp, he]
    refine ⟨rfl, rfl, rfl, rfl⟩

/-- Witness for C9: a concrete parse failure and a concrete engine failure
each produce the single synthetic VIOLATION described by the theorem. -/
theorem C9_witness :
    (validate_rdf { parse := Except.error "bad turtle", engine := Except.ok (true, []) }
      none []).conforms = false ∧
    (validate_rdf { parse := Except.error "bad turtle", engine := Except.ok (true, []) }
      none []).violations = [parseFailViolation "bad turtle"] ∧
    (validate_rdf { parse := Except.ok (), engine := Except.error "engine crash" }
      none []).violations = [engineFailViolation "engine crash"] :=
  ⟨((C9_validate_rdf_error_paths
      { parse := Except.error "bad turtle", engine := Except.ok (true, []) }
      none []).1 "bad turtle" rfl).1,
   ((C9_validate_rdf_error_paths
      { parse := Except.error "bad turtle", engine := Except.ok (true, []) }
      none []).1 "bad turtle" rfl).2.1,
   ((C9_validate_rdf_error_paths
      { parse := Except.ok (), engine := Except.error "engine crash" }
      none []).2 "engine crash" rfl rfl).2.1⟩

end BiR
